import Mathlib

/-!
Verification of the mini 2D/3D game-engine runtime of `src/engine.ts`
(the `engine2D` and `engine3D` script strings returned by `getEngineScript`).

Shallow embedding conventions:
* JS numbers are modelled as `ℚ` (the engine only adds, subtracts,
  multiplies and compares them).
* Reference identity of sprites / meshes is modelled by a numeric `id`
  field: the engine's `filter (s => s !== target)` becomes a filter on
  `id` disagreement.
* The JS `Set` of held key codes is modelled as a `List String` queried
  with `contains`.
* A JS object used as a string-keyed dictionary (`colorMap`, `keyMap`)
  is modelled as an association list queried with `List.lookup`;
  `dict[k] || fallback` becomes `(List.lookup k dict).getD fallback`
  (all stored values are non-empty strings, hence truthy).
* A field that JS may leave `undefined` (a sprite's `velocityY` before
  the first `applyGravity`) is an `Option`.
-/

namespace Engine2D

/-- Model of a 2D sprite: the record built by `Engine.create.sprite`
(`src/engine.ts` line 35).  `id` models JS reference identity;
`velocityY` is `none` while the sprite has no numeric `velocityY`
(the `typeof sprite.velocityY !== 'number'` test in `applyGravity`). -/
structure Sprite where
  id : Nat
  x : ℚ
  y : ℚ
  width : ℚ
  height : ℚ
  asset : String
  color : String
  velocityY : Option ℚ
deriving DecidableEq, Repr

/-- The `colorMap` object literal of `create.sprite` (`src/engine.ts` line 34). -/
def colorMap : List (String × String) :=
  [("player", "skyblue"), ("enemy", "tomato"), ("platform", "lightgreen"),
   ("coin", "gold"), ("default", "white")]

/-- Value of `colorMap[asset] || colorMap.default` (`src/engine.ts` line 35). -/
def paletteColor (asset : String) : String :=
  (List.lookup asset colorMap).getD "white"

/-- The caller-supplied `properties` bag of `create.sprite`, restricted to
the keys that can shadow an engine-computed sprite field (the JS spread
`...properties` is evaluated after the engine-computed fields, so a bag
entry overrides the field of the same name).  A `none` field means the
bag does not contain that key. -/
structure SpriteProps where
  x? : Option ℚ := none
  y? : Option ℚ := none
  width? : Option ℚ := none
  height? : Option ℚ := none
  asset? : Option String := none
  color? : Option String := none
  velocityY? : Option ℚ := none
deriving DecidableEq, Repr

/-- The argument object of `create.sprite` (`src/engine.ts` line 33):
`{ x, y, width = 20, height = 20, asset, properties = {} }`.
`width`/`height` are `none` when the caller omits them (default 20). -/
structure SpriteSpec where
  x : ℚ
  y : ℚ
  width : Option ℚ := none
  height : Option ℚ := none
  asset : String
  properties : SpriteProps := {}
deriving DecidableEq, Repr

/-- The sprite built by `Engine.create.sprite` (`src/engine.ts` lines 33-38):
`{ x, y, width, height, asset, color: colorMap[asset] || colorMap.default,
...properties }`.  The spread of `properties` comes last, so each bag entry
replaces the engine-computed field of the same name; `color` is computed
from the destructured `asset` parameter before the spread. -/
def createSprite (spec : SpriteSpec) (id : Nat) : Sprite :=
  ⟨id,
   spec.properties.x?.getD spec.x,
   spec.properties.y?.getD spec.y,
   spec.properties.width?.getD (spec.width.getD 20),
   spec.properties.height?.getD (spec.height.getD 20),
   spec.properties.asset?.getD spec.asset,
   spec.properties.color?.getD (paletteColor spec.asset),
   spec.properties.velocityY?⟩

/-- `Engine.destroy` (`src/engine.ts` lines 40-42):
`sprites = sprites.filter(s => s !== spriteToDestroy)`, with reference
identity modelled by the `id` field. -/
def destroy (sprites : List Sprite) (target : Nat) : List Sprite :=
  sprites.filter (fun s => decide (s.id ≠ target))

/-- The AABB overlap test body of `physics.checkCollision`
(`src/engine.ts` lines 58-61). -/
def overlaps (spriteA spriteB : Sprite) : Bool :=
  decide (spriteA.x < spriteB.x + spriteB.width ∧
          spriteA.x + spriteA.width > spriteB.x ∧
          spriteA.y < spriteB.y + spriteB.height ∧
          spriteA.y + spriteA.height > spriteB.y)

/-- `physics.checkCollision` (`src/engine.ts` lines 56-62), including the
`if (!spriteA || !spriteB) return false` guard for absent arguments. -/
def checkCollision : Option Sprite → Option Sprite → Bool
  | some a, some b => overlaps a b
  | _, _ => false

/-- `physics.getCollisions` (`src/engine.ts` lines 63-65):
`sprites.filter(other => sprite !== other && Engine.physics.checkCollision(sprite, other))`. -/
def getCollisions (sprites : List Sprite) (sprite : Sprite) : List Sprite :=
  sprites.filter (fun other =>
    decide (sprite.id ≠ other.id) && checkCollision (some sprite) (some other))

/-- `physics.applyGravity` (`src/engine.ts` lines 51-55): coerce a missing
`velocityY` to 0, add `gravityForce * (1/60)` to it, then add the new
`velocityY * (1/60)` to `y`.  The fixed `1/60` step does not depend on the
frame's real elapsed time. -/
def applyGravity (sprite : Sprite) (gravityForce : ℚ) : Sprite :=
  let v0 : ℚ := sprite.velocityY.getD 0
  let v1 : ℚ := v0 + gravityForce * (1/60)
  ⟨sprite.id, sprite.x, sprite.y + v1 * (1/60), sprite.width, sprite.height,
   sprite.asset, sprite.color, some v1⟩

/-- `applyGravity` with its default argument `gravityForce = 980`
(`src/engine.ts` line 51). -/
def applyGravityDefault (sprite : Sprite) : Sprite :=
  applyGravity sprite 980

/-- The `keyMap` object of `input.isPressed` (`src/engine.ts` line 45). -/
def keyMap : List (String × String) :=
  [("space", "Space"), ("arrowleft", "ArrowLeft"), ("arrowright", "ArrowRight"),
   ("arrowup", "ArrowUp"), ("arrowdown", "ArrowDown")]

/-- `key.toLowerCase().replace(/ /g, '')` (`src/engine.ts` line 46):
lowercase each character, then delete every space character
(ASCII lowercasing; alias keys and key codes are ASCII). -/
def normalizeKey (key : String) : String :=
  String.mk ((key.data.map Char.toLower).filter (fun c => c ≠ ' '))

/-- `input.isPressed` (`src/engine.ts` lines 44-48):
`keysPressed.has(keyMap[mappedKey] || key)` — note the fallback is the
ORIGINAL `key`, not the normalized one. -/
def isPressed (keysPressed : List String) (key : String) : Bool :=
  keysPressed.contains ((List.lookup (normalizeKey key) keyMap).getD key)

/-- Model of `deltaTime || 0` (`src/engine.ts` line 76): in ℚ (no NaN)
this maps 0 to 0 and is the identity elsewhere. -/
def jsOrZero (d : ℚ) : ℚ := if d = 0 then 0 else d

/-- The per-frame delta-time computation of `gameLoop`
(`src/engine.ts` lines 69-76) run over a list of animation-frame
timestamps (milliseconds), starting from `lastTime`: each frame computes
`(timestamp - lastTime) / 1000`, updates `lastTime := timestamp`, and the
update callback receives `deltaTime || 0`.  The result is the list of
values passed to the callback, one per frame. -/
def gameLoopDeltasFrom (lastTime : ℚ) : List ℚ → List ℚ
  | [] => []
  | t :: ts => jsOrZero ((t - lastTime) / 1000) :: gameLoopDeltasFrom t ts

/-- The callback arguments produced by the render loop from page start:
`lastTime` is initialized to 0 (`src/engine.ts` line 24). -/
def gameLoopDeltas (timestamps : List ℚ) : List ℚ :=
  gameLoopDeltasFrom 0 timestamps

/-- One `ctx.fillRect` draw command of the render loop with its
`ctx.fillStyle` (`src/engine.ts` lines 79-82). -/
structure DrawCmd where
  fillStyle : String
  x : ℚ
  y : ℚ
  width : ℚ
  height : ℚ
deriving DecidableEq, Repr

/-- The draw command `gameLoop` issues for one sprite
(`src/engine.ts` lines 80-81): fill style is the sprite's `color` field. -/
def drawSprite (s : Sprite) : DrawCmd :=
  ⟨s.color, s.x, s.y, s.width, s.height⟩

/-- The draw commands of one frame of `gameLoop`
(`src/engine.ts` lines 79-82): every live sprite, in order. -/
def renderFrame (sprites : List Sprite) : List DrawCmd :=
  sprites.map drawSprite

end Engine2D

namespace Engine3D

/-- A 3-component vector, modelling `THREE.Vector3` as used by the camera
code of the 3D engine. -/
structure Vec3 where
  x : ℚ
  y : ℚ
  z : ℚ
deriving DecidableEq, Repr

/-- `THREE.Vector3.add`: componentwise addition, as in
`cameraTarget.position.clone().add(cameraOffset)` (`src/engine.ts` line 209). -/
def Vec3.add (a b : Vec3) : Vec3 :=
  ⟨a.x + b.x, a.y + b.y, a.z + b.z⟩

/-- `THREE.Vector3.lerp(v, alpha)`: each component moves by `alpha` times
its distance to the target component, as in
`camera.position.lerp(targetPosition, 0.1)` (`src/engine.ts` line 210). -/
def Vec3.lerp (a b : Vec3) (alpha : ℚ) : Vec3 :=
  ⟨a.x + (b.x - a.x) * alpha,
   a.y + (b.y - a.y) * alpha,
   a.z + (b.z - a.z) * alpha⟩

/-- Model of a 3D mesh node created by `Engine.create.mesh`
(`src/engine.ts` lines 127-147): `id` models JS reference identity;
only the position matters to the verified camera code. -/
structure Mesh where
  id : Nat
  position : Vec3
deriving DecidableEq, Repr

/-- The mutable engine state touched by `Engine.destroy` in the 3D engine
(`src/engine.ts` lines 169-174): the scene graph's children (by identity)
and the tracked `meshes` list.  Geometry/material disposal is a GPU side
effect with no bearing on either collection. -/
structure EngineState where
  meshes : List Mesh
  scene : List Nat
deriving DecidableEq, Repr

/-- `Engine.destroy` of the 3D engine (`src/engine.ts` lines 169-174):
`scene.remove(object3D)` (a no-op when absent) and
`meshes = meshes.filter(m => m !== object3D)`. -/
def destroy (st : EngineState) (target : Nat) : EngineState :=
  ⟨st.meshes.filter (fun m => decide (m.id ≠ target)),
   st.scene.filter (fun n => decide (n ≠ target))⟩

/-- The camera-follow state of the 3D engine (`src/engine.ts` lines
104-105, 182-191): the camera's position, the active follow target
(`cameraTarget`, a mesh reference modelled by id, `none` when not
following), and `cameraOffset`. -/
structure CameraState where
  position : Vec3
  cameraTarget : Option Nat
  cameraOffset : Vec3
deriving DecidableEq, Repr

/-- `Engine.camera.follow` (`src/engine.ts` lines 183-186): stores the mesh
as `cameraTarget` and copies the offset into `cameraOffset`. -/
def follow (st : CameraState) (meshToFollow : Nat) (offset : Vec3) : CameraState :=
  ⟨st.position, some meshToFollow, offset⟩

/-- The camera update of one `animate` frame (`src/engine.ts` lines
208-212): when a follow target is active, the camera position lerps toward
`cameraTarget.position + cameraOffset` with the constant factor `0.1`;
`meshPosition` gives each mesh's current position (read at frame time).
The step takes no delta-time argument: the factor is per-frame, not
time-scaled. -/
def animateCamera (st : CameraState) (meshPosition : Nat → Vec3) : CameraState :=
  match st.cameraTarget with
  | none => st
  | some m =>
    let targetPosition := (meshPosition m).add st.cameraOffset
    ⟨st.position.lerp targetPosition (1/10), st.cameraTarget, st.cameraOffset⟩

/-- The `keyMap` object of the 3D engine's `input.isPressed`
(`src/engine.ts` line 177): the 2D aliases extended with WASD. -/
def keyMap : List (String × String) :=
  [("space", "Space"), ("arrowleft", "ArrowLeft"), ("arrowright", "ArrowRight"),
   ("arrowup", "ArrowUp"), ("arrowdown", "ArrowDown"),
   ("keyw", "KeyW"), ("keya", "KeyA"), ("keys", "KeyS"), ("keyd", "KeyD")]

/-- `key.toLowerCase().replace(/ /g, '')` (`src/engine.ts` line 178),
identical to the 2D engine's normalization. -/
def normalizeKey (key : String) : String :=
  String.mk ((key.data.map Char.toLower).filter (fun c => c ≠ ' '))

/-- `input.isPressed` of the 3D engine (`src/engine.ts` lines 176-180). -/
def isPressed (keysPressed : List String) (key : String) : Bool :=
  keysPressed.contains ((List.lookup (normalizeKey key) keyMap).getD key)

end Engine3D

/-- C1: `physics.getCollisions(s)` returns exactly those live sprites other
than `s` whose axis-aligned bounding box overlaps `s`'s (i.e. for which
`checkCollision(s, other)` is true), and never includes `s` itself. -/
theorem c1_getCollisions_exact (sprites : List Engine2D.Sprite) (s : Engine2D.Sprite) :
    (∀ o : Engine2D.Sprite, o ∈ Engine2D.getCollisions sprites s ↔
      o ∈ sprites ∧ o.id ≠ s.id ∧
        Engine2D.checkCollision (some s) (some o) = true) ∧
    s ∉ Engine2D.getCollisions sprites s := by
  have key : ∀ o : Engine2D.Sprite, o ∈ Engine2D.getCollisions sprites s ↔
      o ∈ sprites ∧ o.id ≠ s.id ∧
        Engine2D.checkCollision (some s) (some o) = true := by
    intro o
    simp only [Engine2D.getCollisions, List.mem_filter, Bool.and_eq_true,
      decide_eq_true_eq]
    constructor
    · rintro ⟨h1, h2, h3⟩
      exact ⟨h1, fun hc => h2 hc.symm, h3⟩
    · rintro ⟨h1, h2, h3⟩
      exact ⟨h1, fun hc => h2 hc.symm, h3⟩
  refine ⟨key, fun h => ?_⟩
  exact ((key s).mp h).2.1 rfl

/-- C3: `physics.applyGravity(s, g)` uses a fixed 1/60-second step: the new
`velocityY` is the previous one (0 when it was not a number) plus
`g * (1/60)`, `y` grows by the new `velocityY * (1/60)`, every other sprite
field is unchanged, and the default force is 980. -/
theorem c3_applyGravity_fixed_step (s : Engine2D.Sprite) (g : ℚ) :
    (Engine2D.applyGravity s g).velocityY
        = some (s.velocityY.getD 0 + g * (1/60)) ∧
    (Engine2D.applyGravity s g).y
        = s.y + (s.velocityY.getD 0 + g * (1/60)) * (1/60) ∧
    (Engine2D.applyGravity s g).x = s.x ∧
    (Engine2D.applyGravity s g).width = s.width ∧
    (Engine2D.applyGravity s g).height = s.height ∧
    (Engine2D.applyGravity s g).color = s.color ∧
    Engine2D.applyGravityDefault s = Engine2D.applyGravity s 980 :=
  ⟨rfl, rfl, rfl, rfl, rfl, rfl, rfl⟩

/-- C5: `destroy` is idempotent in both engines: destroying the same entity
a second time leaves the live collection (and, in 3D, the scene) exactly as
it was after the first call. -/
theorem c5_destroy_idempotent :
    (∀ (sprites : List Engine2D.Sprite) (t : Nat),
      Engine2D.destroy (Engine2D.destroy sprites t) t
        = Engine2D.destroy sprites t) ∧
    (∀ (st : Engine3D.EngineState) (t : Nat),
      Engine3D.destroy (Engine3D.destroy st t) t = Engine3D.destroy st t) := by
  constructor
  · intro sprites t
    simp [Engine2D.destroy, List.filter_filter]
  · intro st t
    cases st with
    | mk meshes scene =>
      simp [Engine3D.destroy, List.filter_filter]

/-- C7: `physics.checkCollision` is symmetric: swapping the two arguments
(present or absent) never changes the result. -/
theorem c7_checkCollision_symm (a b : Option Engine2D.Sprite) :
    Engine2D.checkCollision a b = Engine2D.checkCollision b a := by
  cases a with
  | none => cases b <;> rfl
  | some sa =>
    cases b with
    | none => rfl
    | some sb =>
      simp only [Engine2D.checkCollision, Engine2D.overlaps]
      rw [decide_eq_decide]
      constructor
      · rintro ⟨h1, h2, h3, h4⟩
        exact ⟨h2, h1, h4, h3⟩
      · rintro ⟨h1, h2, h3, h4⟩
        exact ⟨h2, h1, h4, h3⟩

/-- C10: the four box comparisons of `checkCollision` are strict, so boxes
that merely touch along an edge or corner (one side coordinate equal to the
other box's opposite side) do not collide. -/
theorem c10_touching_boxes_no_collision (a b : Engine2D.Sprite)
    (h : a.x + a.width = b.x ∨ b.x + b.width = a.x ∨
         a.y + a.height = b.y ∨ b.y + b.height = a.y) :
    Engine2D.checkCollision (some a) (some b) = false := by
  simp only [Engine2D.checkCollision, Engine2D.overlaps,
    decide_eq_false_iff_not]
  rintro ⟨h1, h2, h3, h4⟩
  rcases h with h | h | h | h <;> linarith

/-- Concrete sprite touching `touchB` exactly along its right edge. -/
def touchA : Engine2D.Sprite := ⟨0, 0, 0, 10, 10, "player", "skyblue", none⟩

/-- Concrete sprite whose left edge is `touchA`'s right edge. -/
def touchB : Engine2D.Sprite := ⟨1, 10, 0, 10, 10, "enemy", "tomato", none⟩

/-- C10 witness: two concrete edge-touching boxes satisfy the hypothesis and
`checkCollision` returns false on them. -/
theorem c10_touching_boxes_no_collision_witness :
    touchA.x + touchA.width = touchB.x ∧
    Engine2D.checkCollision (some touchA) (some touchB) = false := by
  refine ⟨by norm_num [touchA, touchB], ?_⟩
  exact c10_touching_boxes_no_collision touchA touchB
    (Or.inl (by norm_num [touchA, touchB]))

/-- Value of `x || 0` on a rational that is not NaN: the identity. -/
theorem jsOrZero_eq (d : ℚ) : Engine2D.jsOrZero d = d := by
  by_cases h : d = 0 <;> simp [Engine2D.jsOrZero, h]

/-- One callback argument per processed animation-frame timestamp. -/
theorem gameLoopDeltasFrom_length (ts : List ℚ) :
    ∀ lastTime : ℚ,
      (Engine2D.gameLoopDeltasFrom lastTime ts).length = ts.length := by
  induction ts with
  | nil => intro lastTime; rfl
  | cons t ts ih =>
    intro lastTime
    simp [Engine2D.gameLoopDeltasFrom, ih]

/-- C2 counterexample: when the first animation frame arrives at timestamp
1000 ms, the update callback receives 1 second, not 0 — `lastTime` starts
at 0 and `deltaTime || 0` only guards the exact value 0, so the first
callback argument is the first timestamp divided by 1000. -/
theorem c2_first_frame_delta_not_zero :
    Engine2D.gameLoopDeltas [1000] = [1] ∧ (1 : ℚ) ≠ 0 := by
  constructor
  · show Engine2D.jsOrZero ((1000 - 0) / 1000) :: [] = [1]
    norm_num [Engine2D.jsOrZero]
  · norm_num

/-- C2 (amended): the render loop invokes the update callback once per
animation frame with `(timestamp - previousTimestamp) / 1000` seconds;
on the first frame `lastTime` is 0, so the callback receives the first
frame's timestamp divided by 1000 (0 exactly when that timestamp is 0). -/
theorem c2_render_loop_delta (timestamps : List ℚ) :
    (Engine2D.gameLoopDeltas timestamps).length = timestamps.length ∧
    (∀ (t : ℚ) (ts : List ℚ),
      Engine2D.gameLoopDeltas (t :: ts)
        = t / 1000 :: Engine2D.gameLoopDeltasFrom t ts) ∧
    (∀ (lastTime t : ℚ) (ts : List ℚ),
      Engine2D.gameLoopDeltasFrom lastTime (t :: ts)
        = (t - lastTime) / 1000 :: Engine2D.gameLoopDeltasFrom t ts) := by
  refine ⟨gameLoopDeltasFrom_length timestamps 0, ?_, ?_⟩
  · intro t ts
    show Engine2D.jsOrZero ((t - 0) / 1000) :: _ = _
    rw [jsOrZero_eq, sub_zero]
  · intro lastTime t ts
    show Engine2D.jsOrZero ((t - lastTime) / 1000) :: _ = _
    rw [jsOrZero_eq]

/-- Sprite spec whose property bag supplies a color, shadowing the palette. -/
def overrideSpec : Engine2D.SpriteSpec :=
  ⟨0, 0, none, none, "player", ⟨none, none, none, none, none, some "purple", none⟩⟩

/-- C4 counterexample: a sprite created with kind `player` but a property
bag containing `color: 'purple'` is drawn purple, not the palette's sky
blue — the `...properties` spread overrides the palette-derived color. -/
theorem c4_color_override_counterexample :
    Engine2D.paletteColor "player" = "skyblue" ∧
    (Engine2D.createSprite overrideSpec 0).color = "purple" ∧
    (Engine2D.drawSprite (Engine2D.createSprite overrideSpec 0)).fillStyle
        = "purple" ∧
    ("purple" : String) ≠ "skyblue" := by
  exact ⟨rfl, rfl, rfl, by decide⟩

/-- C4 (amended): when the caller's property bag does not supply a `color`,
a sprite created with kind `k` is drawn with the fixed palette color for
`k` — `player` sky blue, `enemy` tomato, `platform` light green, `coin`
gold, and white for any kind outside the palette (a bag-supplied color
overrides this). -/
theorem c4_palette_color (spec : Engine2D.SpriteSpec) (id : Nat)
    (hc : spec.properties.color? = none) :
    (Engine2D.createSprite spec id).color = Engine2D.paletteColor spec.asset ∧
    (Engine2D.drawSprite (Engine2D.createSprite spec id)).fillStyle
        = Engine2D.paletteColor spec.asset ∧
    Engine2D.paletteColor "player" = "skyblue" ∧
    Engine2D.paletteColor "enemy" = "tomato" ∧
    Engine2D.paletteColor "platform" = "lightgreen" ∧
    Engine2D.paletteColor "coin" = "gold" ∧
    (∀ k : String, k ≠ "player" → k ≠ "enemy" → k ≠ "platform" → k ≠ "coin" →
      Engine2D.paletteColor k = "white") := by
  have hcol : (Engine2D.createSprite spec id).color
      = Engine2D.paletteColor spec.asset := by
    simp [Engine2D.createSprite, hc]
  refine ⟨hcol, hcol, rfl, rfl, rfl, rfl, ?_⟩
  intro k h1 h2 h3 h4
  by_cases hk : k = "default"
  · subst hk; decide
  · have e1 : (k == "player") = false := beq_eq_false_iff_ne.mpr h1
    have e2 : (k == "enemy") = false := beq_eq_false_iff_ne.mpr h2
    have e3 : (k == "platform") = false := beq_eq_false_iff_ne.mpr h3
    have e4 : (k == "coin") = false := beq_eq_false_iff_ne.mpr h4
    have e5 : (k == "default") = false := beq_eq_false_iff_ne.mpr hk
    simp [Engine2D.paletteColor, Engine2D.colorMap, List.lookup,
      e1, e2, e3, e4, e5]

/-- Sprite spec with kind `player` and an empty property bag. -/
def plainSpec : Engine2D.SpriteSpec :=
  ⟨3, 4, none, none, "player", ⟨none, none, none, none, none, none, none⟩⟩

/-- C4 witness: a concrete `player` sprite with no bag-supplied color is
drawn with the palette color, sky blue. -/
theorem c4_palette_color_witness :
    (Engine2D.createSprite plainSpec 7).color = Engine2D.paletteColor "player" ∧
    Engine2D.paletteColor "player" = "skyblue" :=
  ⟨(c4_palette_color plainSpec 7 rfl).1, by decide⟩

/-- Lerping with the fixed factor 1/10 reaches the target exactly when the
start already equals the target. -/
theorem vec3_lerp_tenth_eq_iff (a b : Engine3D.Vec3) :
    a.lerp b (1/10) = b ↔ a = b := by
  cases a with
  | mk p1 p2 p3 =>
    cases b with
    | mk q1 q2 q3 =>
      simp only [Engine3D.Vec3.lerp, Engine3D.Vec3.mk.injEq]
      constructor
      · rintro ⟨e1, e2, e3⟩
        exact ⟨by linarith, by linarith, by linarith⟩
      · rintro ⟨e1, e2, e3⟩
        subst e1; subst e2; subst e3
        exact ⟨by ring, by ring, by ring⟩

/-- C6: after `camera.follow(mesh, offset)`, one frame of `animate` moves
the camera position by the fixed interpolation factor 0.1 toward
`mesh.position + offset` (a lerp not scaled by elapsed time — the step
takes no delta-time input), the mesh stays the follow target, and when the
camera is not already at the goal a single tick does not reach it. -/
theorem c6_camera_follow_partway (st : Engine3D.CameraState)
    (meshPosition : Nat → Engine3D.Vec3) (m : Nat) (offset : Engine3D.Vec3)
    (h : st.position ≠ (meshPosition m).add offset) :
    (Engine3D.animateCamera (Engine3D.follow st m offset) meshPosition).position
        = st.position.lerp ((meshPosition m).add offset) (1/10) ∧
    (Engine3D.animateCamera (Engine3D.follow st m offset) meshPosition).position
        ≠ (meshPosition m).add offset ∧
    (Engine3D.animateCamera (Engine3D.follow st m offset) meshPosition).cameraTarget
        = some m := by
  refine ⟨rfl, ?_, rfl⟩
  intro heq
  exact h ((vec3_lerp_tenth_eq_iff st.position ((meshPosition m).add offset)).mp heq)

/-- Camera at the origin, not yet following anything. -/
def camState0 : Engine3D.CameraState := ⟨⟨0, 0, 0⟩, none, ⟨0, 5, 10⟩⟩

/-- Every mesh sits at (10, 0, 0). -/
def meshAt : Nat → Engine3D.Vec3 := fun _ => ⟨10, 0, 0⟩

/-- C6 witness: following mesh 0 with offset (0,5,10) from the origin, one
tick puts the camera at (1, 1/2, 1) — a tenth of the way to (10,5,10), not
at the goal. -/
theorem c6_camera_follow_partway_witness :
    (Engine3D.animateCamera
        (Engine3D.follow camState0 0 ⟨0, 5, 10⟩) meshAt).position
      = ⟨1, 1/2, 1⟩ ∧
    (Engine3D.animateCamera
        (Engine3D.follow camState0 0 ⟨0, 5, 10⟩) meshAt).position
      ≠ (meshAt 0).add ⟨0, 5, 10⟩ := by
  have h := c6_camera_follow_partway camState0 meshAt 0 ⟨0, 5, 10⟩
    (by norm_num [camState0, meshAt, Engine3D.Vec3.add, Engine3D.Vec3.mk.injEq])
  refine ⟨?_, h.2.1⟩
  rw [h.1]
  norm_num [camState0, meshAt, Engine3D.Vec3.add, Engine3D.Vec3.lerp,
    Engine3D.Vec3.mk.injEq]

/-- C8: both engines' `input.isPressed(key)` lowercases `key` and strips
spaces; a normalized form in the alias map is looked up as its canonical
key code, any other key is looked up verbatim (the original string), so
keys normalizing to a defined alias agree regardless of case and spaces. -/
theorem c8_isPressed_normalization :
    (∀ (keysPressed : List String) (key canonical : String),
      List.lookup (Engine2D.normalizeKey key) Engine2D.keyMap = some canonical →
      Engine2D.isPressed keysPressed key = keysPressed.contains canonical) ∧
    (∀ (keysPressed : List String) (key : String),
      List.lookup (Engine2D.normalizeKey key) Engine2D.keyMap = none →
      Engine2D.isPressed keysPressed key = keysPressed.contains key) ∧
    (∀ (keysPressed : List String) (k1 k2 : String),
      Engine2D.normalizeKey k1 = Engine2D.normalizeKey k2 →
      (List.lookup (Engine2D.normalizeKey k1) Engine2D.keyMap).isSome = true →
      Engine2D.isPressed keysPressed k1 = Engine2D.isPressed keysPressed k2) ∧
    (∀ (keysPressed : List String) (key canonical : String),
      List.lookup (Engine3D.normalizeKey key) Engine3D.keyMap = some canonical →
      Engine3D.isPressed keysPressed key = keysPressed.contains canonical) ∧
    (∀ (keysPressed : List String) (key : String),
      List.lookup (Engine3D.normalizeKey key) Engine3D.keyMap = none →
      Engine3D.isPressed keysPressed key = keysPressed.contains key) ∧
    (∀ (keysPressed : List String) (k1 k2 : String),
      Engine3D.normalizeKey k1 = Engine3D.normalizeKey k2 →
      (List.lookup (Engine3D.normalizeKey k1) Engine3D.keyMap).isSome = true →
      Engine3D.isPressed keysPressed k1 = Engine3D.isPressed keysPressed k2) := by
  refine ⟨?_, ?_, ?_, ?_, ?_, ?_⟩
  · intro ks key c h
    simp [Engine2D.isPressed, h]
  · intro ks key h
    simp [Engine2D.isPressed, h]
  · intro ks k1 k2 hn hs
    obtain ⟨c, hc⟩ := Option.isSome_iff_exists.mp hs
    simp only [Engine2D.isPressed]
    rw [← hn, hc]
    simp
  · intro ks key c h
    simp [Engine3D.isPressed, h]
  · intro ks key h
    simp [Engine3D.isPressed, h]
  · intro ks k1 k2 hn hs
    obtain ⟨c, hc⟩ := Option.isSome_iff_exists.mp hs
    simp only [Engine3D.isPressed]
    rw [← hn, hc]
    simp

/-- C8 witness: with the `Space` code held, the concrete keys `' SPACE '`
and `'space'` agree (both normalize to the `space` alias) and the key
reads as pressed; in 3D, `'KEYW'` reads the held `KeyW` code. -/
theorem c8_isPressed_normalization_witness :
    Engine2D.isPressed ["Space"] " SPACE "
      = Engine2D.isPressed ["Space"] "space" ∧
    Engine2D.isPressed ["Space"] "space" = true ∧
    Engine3D.isPressed ["KeyW"] "KEYW" = true := by
  refine ⟨?_, by decide, by decide⟩
  exact c8_isPressed_normalization.2.2.1 ["Space"] " SPACE " "space"
    (by decide) (by decide)

/-- C9: the `...properties` spread of `create.sprite` comes after the
engine-computed fields, so a bag entry named `x`, `y`, `width`, `height`,
`asset` or `color` overrides the engine-computed value of that field in
the returned sprite. -/
theorem c9_properties_bag_overrides (spec : Engine2D.SpriteSpec) (id : Nat) :
    (∀ v : ℚ, spec.properties.x? = some v
      → (Engine2D.createSprite spec id).x = v) ∧
    (∀ v : ℚ, spec.properties.y? = some v
      → (Engine2D.createSprite spec id).y = v) ∧
    (∀ v : ℚ, spec.properties.width? = some v
      → (Engine2D.createSprite spec id).width = v) ∧
    (∀ v : ℚ, spec.properties.height? = some v
      → (Engine2D.createSprite spec id).height = v) ∧
    (∀ a : String, spec.properties.asset? = some a
      → (Engine2D.createSprite spec id).asset = a) ∧
    (∀ c : String, spec.properties.color? = some c
      → (Engine2D.createSprite spec id).color = c) := by
  refine ⟨?_, ?_, ?_, ?_, ?_, ?_⟩ <;>
    · intro v h
      simp [Engine2D.createSprite, h]

/-- Sprite spec whose property bag overrides all six engine-computed fields. -/
def bagSpec : Engine2D.SpriteSpec :=
  ⟨0, 0, some 5, some 6, "player",
   ⟨some 100, some 200, some 30, some 40, some "enemy", some "magenta", none⟩⟩

/-- C9 witness: a concrete sprite whose bag carries all six keys gets every
field from the bag, including a color differing from the `player` palette. -/
theorem c9_properties_bag_overrides_witness :
    (Engine2D.createSprite bagSpec 1).x = 100 ∧
    (Engine2D.createSprite bagSpec 1).y = 200 ∧
    (Engine2D.createSprite bagSpec 1).width = 30 ∧
    (Engine2D.createSprite bagSpec 1).height = 40 ∧
    (Engine2D.createSprite bagSpec 1).asset = "enemy" ∧
    (Engine2D.createSprite bagSpec 1).color = "magenta" :=
  ⟨(c9_properties_bag_overrides bagSpec 1).1 100 rfl,
   (c9_properties_bag_overrides bagSpec 1).2.1 200 rfl,
   (c9_properties_bag_overrides bagSpec 1).2.2.1 30 rfl,
   (c9_properties_bag_overrides bagSpec 1).2.2.2.1 40 rfl,
   (c9_properties_bag_overrides bagSpec 1).2.2.2.2.1 "enemy" rfl,
   (c9_properties_bag_overrides bagSpec 1).2.2.2.2.2 "magenta" rfl⟩

/-- Sprite at (0,0) of size 20×20. -/
def collA : Engine2D.Sprite := ⟨0, 0, 0, 20, 20, "player", "skyblue", none⟩

/-- Sprite at (10,10) of size 20×20, overlapping `collA`. -/
def collB : Engine2D.Sprite := ⟨1, 10, 10, 20, 20, "enemy", "tomato", none⟩

/-- C1 witness: with the live collection `[collA, collB]`, the collisions
of `collA` contain the overlapping `collB` but not `collA` itself. -/
theorem c1_getCollisions_exact_witness :
    collB ∈ Engine2D.getCollisions [collA, collB] collA ∧
    collA ∉ Engine2D.getCollisions [collA, collB] collA := by
  refine ⟨?_, (c1_getCollisions_exact [collA, collB] collA).2⟩
  apply ((c1_getCollisions_exact [collA, collB] collA).1 collB).mpr
  refine ⟨by simp, by decide, ?_⟩
  simp only [Engine2D.checkCollision, Engine2D.overlaps, collA, collB,
    decide_eq_true_eq]
  norm_num
